import Mathlib

/-!
Verification development for the `cursed-life` repository: Conway's Game of
Life on six board topologies.  The padded cell buffer is embedded as a
function `Nat → Nat → Bool`; the interior cell `(r, c)` (0-based, `r < R`,
`c < C`) lives at padded position `(r + 1, c + 1)`, and the one-cell border
occupies row 0, row `R + 1`, column 0 and column `C + 1`.  Each
`_update_padding_*` method of `src/life/life.py` (identical in the legacy
`src/life.py`) only writes border positions and only reads interior
positions, so it is embedded as a pointwise case split on the target index.
-/

namespace CursedLife

/-- The six board geometries (`Geometry` enum, src/life/life.py lines 17-25). -/
inductive Geometry where
  | rectangle
  | cylinder
  | torus
  | mobiusStrip
  | kleinBottle
  | projectivePlane
deriving DecidableEq, Repr

/-- A padded cell buffer: `(R + 2) × (C + 2)` boolean matrix, embedded as a
total function (claims only constrain indices inside the padded range). -/
abbrev Grid : Type := Nat → Nat → Bool

/-- Interior accessor: `self.state[r, c]` is `self._padded_state[r + 1, c + 1]`
(src/life/life.py lines 79-82). -/
def interiorGet (p : Grid) (r c : Nat) : Bool := p (r + 1) (c + 1)

/-- `_update_padding_rectangle` (src/life/life.py lines 141-146): the whole
border is set to 0.  (Positions outside the padded index range are
unconstrained by every claim; the case split extends the written pattern.) -/
def updatePaddingRectangle (R C : Nat) (p : Grid) (i j : Nat) : Bool :=
  if i = 0 then false
  else if i = R + 1 then false
  else if j = 0 then false
  else if j = C + 1 then false
  else p i j

/-- `_update_padding_cylinder` (src/life/life.py lines 148-153): top and bottom
rows 0, left column from interior column C-1, right column from interior
column 0 (same row; rows `1:-1`, i.e. `1 ≤ i ≤ R`). -/
def updatePaddingCylinder (R C : Nat) (p : Grid) (i j : Nat) : Bool :=
  if i = 0 then false
  else if i = R + 1 then false
  else if i ≤ R then
    if j = 0 then p i C
    else if j = C + 1 then p i 1
    else p i j
  else p i j

/-- `_update_padding_torus` (src/life/life.py lines 155-167): non-corner edges
wrap to the opposite interior row/column, corners to the diagonally opposite
interior corner (`[0,0] = state[-1,-1]`, `[0,-1] = state[-1,0]`,
`[-1,0] = state[0,-1]`, `[-1,-1] = state[0,0]`). -/
def updatePaddingTorus (R C : Nat) (p : Grid) (i j : Nat) : Bool :=
  if i = 0 then
    if j = 0 then p R C
    else if j = C + 1 then p R 1
    else if j ≤ C then p R j
    else p i j
  else if i = R + 1 then
    if j = 0 then p 1 C
    else if j = C + 1 then p 1 1
    else if j ≤ C then p 1 j
    else p i j
  else if i ≤ R then
    if j = 0 then p i C
    else if j = C + 1 then p i 1
    else p i j
  else p i j

/-- `_update_padding_mobius_strip` (src/life/life.py lines 169-174): top and
bottom rows 0, left/right columns from the row-reversed opposite interior
column (`self.state[::-1, -1]` and `self.state[::-1, 0]`): padded row `i`
(`1 ≤ i ≤ R`) reads interior row `R - i`, i.e. padded row `R + 1 - i`. -/
def updatePaddingMobiusStrip (R C : Nat) (p : Grid) (i j : Nat) : Bool :=
  if i = 0 then false
  else if i = R + 1 then false
  else if i ≤ R then
    if j = 0 then p (R + 1 - i) C
    else if j = C + 1 then p (R + 1 - i) 1
    else p i j
  else p i j

/-- `_update_padding_klein_bottle` (src/life/life.py lines 176-188): top/bottom
edges as torus (no reversal), left/right as Möbius (row-reversed), corners
reflected (`[0,0] = state[0,-1]`, `[0,-1] = state[0,0]`, `[-1,0] = state[-1,-1]`,
`[-1,-1] = state[-1,0]`). -/
def updatePaddingKleinBottle (R C : Nat) (p : Grid) (i j : Nat) : Bool :=
  if i = 0 then
    if j = 0 then p 1 C
    else if j = C + 1 then p 1 1
    else if j ≤ C then p R j
    else p i j
  else if i = R + 1 then
    if j = 0 then p R C
    else if j = C + 1 then p R 1
    else if j ≤ C then p 1 j
    else p i j
  else if i ≤ R then
    if j = 0 then p (R + 1 - i) C
    else if j = C + 1 then p (R + 1 - i) 1
    else p i j
  else p i j

/-- `_update_padding_projective_plane` (src/life/life.py lines 190-202):
top/bottom edges column-reversed (`state[-1, ::-1]`, `state[0, ::-1]`: padded
column `j`, `1 ≤ j ≤ C`, reads interior column `C - j`, i.e. padded column
`C + 1 - j`), left/right as Möbius, corners the identity
(`[0,0] = state[0,0]`, `[0,-1] = state[0,-1]`, `[-1,0] = state[-1,0]`,
`[-1,-1] = state[-1,-1]`). -/
def updatePaddingProjectivePlane (R C : Nat) (p : Grid) (i j : Nat) : Bool :=
  if i = 0 then
    if j = 0 then p 1 1
    else if j = C + 1 then p 1 C
    else if j ≤ C then p R (C + 1 - j)
    else p i j
  else if i = R + 1 then
    if j = 0 then p R 1
    else if j = C + 1 then p R C
    else if j ≤ C then p 1 (C + 1 - j)
    else p i j
  else if i ≤ R then
    if j = 0 then p (R + 1 - i) C
    else if j = C + 1 then p (R + 1 - i) 1
    else p i j
  else p i j

/-- `_update_padding` dispatch (src/life/life.py lines 123-139). -/
def updatePadding (g : Geometry) (R C : Nat) (p : Grid) : Grid :=
  match g with
  | .rectangle => updatePaddingRectangle R C p
  | .cylinder => updatePaddingCylinder R C p
  | .torus => updatePaddingTorus R C p
  | .mobiusStrip => updatePaddingMobiusStrip R C p
  | .kleinBottle => updatePaddingKleinBottle R C p
  | .projectivePlane => updatePaddingProjectivePlane R C p

/-- Validation errors raised during `Life.__init__`
(src/life/utils.py and the `Geometry(geometry)` conversion). -/
inductive LifeError where
  | notPositive
  | badProbability
  | badGeometry
deriving DecidableEq, Repr

/-- The engine state: dimensions, cell-alive probability, geometry, the
pseudo-random generator state, and the padded cell buffer
(`Life.__init__`, src/life/life.py lines 65-77). -/
structure Life where
  n_rows : Nat
  n_cols : Nat
  prob : Rat
  geometry : Geometry
  rng : Nat
  padded : Grid

/-- String values of the `Geometry` enum members (src/life/life.py
lines 20-25); `GEOMETRIES` at line 29 lists exactly these. -/
def GEOMETRIES : List String :=
  ["rectangle", "cylinder", "torus", "mobius", "klein", "projective"]

/-- `Geometry(geometry)` conversion: maps a recognized enum value string to
its member and fails (ValueError) otherwise. -/
def geometryFromString (s : String) : Option Geometry :=
  if s = "rectangle" then some .rectangle
  else if s = "cylinder" then some .cylinder
  else if s = "torus" then some .torus
  else if s = "mobius" then some .mobiusStrip
  else if s = "klein" then some .kleinBottle
  else if s = "projective" then some .projectivePlane
  else none

/-- `Life.__init__` (src/life/life.py lines 65-77): `check_positive_int` on
both dimensions (src/life/utils.py lines 6-37, success iff `value > 0`),
`check_probability` on `prob` (lines 40-72, success iff `0 ≤ value ≤ 1`),
`Geometry(geometry)` conversion, then a zeroed `(n_rows+2) × (n_cols+2)`
boolean padded buffer.  The seed initializes the generator state. -/
def mkLife (n_rows n_cols : Int) (geometry : String) (prob : Rat) (seed : Nat) :
    Except LifeError Life :=
  if 0 < n_rows then
    if 0 < n_cols then
      if 0 ≤ prob ∧ prob ≤ 1 then
        match geometryFromString geometry with
        | some g =>
            .ok { n_rows := n_rows.toNat, n_cols := n_cols.toNat, prob := prob,
                  geometry := g, rng := seed, padded := fun _ _ => false }
        | none => .error .badGeometry
      else .error .badProbability
    else .error .notPositive
  else .error .notPositive

/-- `true` iff construction succeeded. -/
def mkLifeOk (n_rows n_cols : Int) (geometry : String) (prob : Rat) (seed : Nat) : Bool :=
  match mkLife n_rows n_cols geometry prob seed with
  | .ok _ => true
  | .error _ => false

/-- Resynchronize the border: `self._update_padding()` applied to the
current buffer. -/
def Life.updatePad (L : Life) : Life :=
  { L with padded := updatePadding L.geometry L.n_rows L.n_cols L.padded }

/-- `self._padded_state[1:-1, 1:-1] = new_state` for an exactly
`rows × cols` right-hand side: overwrite the interior, keep the border. -/
def overwriteInterior (R C : Nat) (p : Grid) (g : Nat → Nat → Bool) : Grid := fun i j =>
  if 1 ≤ i ∧ i ≤ R ∧ 1 ≤ j ∧ j ≤ C then g (i - 1) (j - 1)
  else p i j

/-- The `state` setter body for an exactly-shaped grid (src/life/life.py
lines 84-88): write the interior, then `_update_padding()`. -/
def Life.setInterior (L : Life) (g : Nat → Nat → Bool) : Life :=
  Life.updatePad { L with padded := overwriteInterior L.n_rows L.n_cols L.padded g }

/-- The `state` setter (src/life/life.py lines 84-88) as called with a 2-D
array of shape `(gr, gc)`.  The numpy slice assignment
`self._padded_state[1:-1, 1:-1] = new_state` broadcasts: it succeeds iff each
source dimension equals the matching interior dimension or 1, repeating a
size-1 dimension across the interior; otherwise numpy raises ValueError and
the buffer is untouched. -/
def Life.set_state (L : Life) (gr gc : Nat) (g : Nat → Nat → Bool) : Option Life :=
  if (gr = L.n_rows ∨ gr = 1) ∧ (gc = L.n_cols ∨ gc = 1) then
    some (L.setInterior (fun r c =>
      g (if gr = 1 then 0 else r) (if gc = 1 then 0 else c)))
  else none

/-- The interior cell `(r, c)` read back after a `set_state` call, when the
call succeeded. -/
def stateAfterSet (L : Life) (gr gc : Nat) (g : Nat → Nat → Bool) (r c : Nat) :
    Option Bool :=
  Option.map (fun L2 => interiorGet L2.padded r c) (L.set_state gr gc g)

/-- `Life.clear` (src/life/life.py lines 92-95): assign an all-false
`rows × cols` grid through the state setter. -/
def Life.clear (L : Life) : Life := L.setInterior (fun _ _ => false)

/-- Models `numpy.random.RandomState` stepping: an opaque deterministic
function of the current generator state (the repository treats the generator
as a black box seeded once in `__init__`; any deterministic step function
realizes its contract). -/
def rngNext (s : Nat) : Nat := (1103515245 * s + 12345) % 2147483648

/-- Models one cell drawn by `self.rng.choice([False, True], p=[1-prob, prob],
size=(n_rows, n_cols))` (src/life/life.py lines 99-101): a Boolean that is a
deterministic function of the generator state, the probability, and the cell
position. -/
def rngCell (s : Nat) (prob : Rat) (r c : Nat) : Bool :=
  ((rngNext (s + 7919 * r + c) % 1048576 : Nat) : Rat) < prob * 1048576

/-- `Life.randomize` (src/life/life.py lines 97-102): draw a full
`rows × cols` grid from the generator, assign it through the state setter,
and advance the generator state. -/
def Life.randomize (L : Life) : Life :=
  { L.setInterior (rngCell L.rng L.prob) with rng := rngNext L.rng }

/-- Flip one cell of the padded buffer
(`self._padded_state[row+1, col+1] ^= True`). -/
def flipCell (p : Grid) (a b : Nat) : Grid := fun i j =>
  if i = a ∧ j = b then !p i j
  else p i j

/-- `Life.toggle_cell` of the package implementation (src/life/life.py lines
104-109): bounds check (IndexError modelled as `none`), flip the interior
cell, then `_update_padding()`. -/
def Life.toggle_cell (L : Life) (row col : Int) : Option Life :=
  if 0 ≤ row ∧ row < (L.n_rows : Int) ∧ 0 ≤ col ∧ col < (L.n_cols : Int) then
    some (Life.updatePad { L with padded := flipCell L.padded (row.toNat + 1) (col.toNat + 1) })
  else none

/-- `Life.toggle_cell` of the legacy standalone script (src/life.py lines
180-184): bounds check and flip, with NO `_update_padding()` call afterwards. -/
def Life.toggle_cell_legacy (L : Life) (row col : Int) : Option Life :=
  if 0 ≤ row ∧ row < (L.n_rows : Int) ∧ 0 ≤ col ∧ col < (L.n_cols : Int) then
    some { L with padded := flipCell L.padded (row.toNat + 1) (col.toNat + 1) }
  else none

/-- Living-neighbor count of interior cell `(r, c)`: the 8 padded-buffer cells
surrounding padded position `(r + 1, c + 1)`. -/
def liveNeighbors (p : Grid) (r c : Nat) : Nat :=
  (p r c).toNat + (p r (c + 1)).toNat + (p r (c + 2)).toNat
    + (p (r + 1) c).toNat + (p (r + 1) (c + 2)).toNat
    + (p (r + 2) c).toNat + (p (r + 2) (c + 1)).toNat + (p (r + 2) (c + 2)).toNat

/-- Cross-correlation of the padded buffer with `_KERNEL`
(src/life/life.py lines 12-14: weight 10 on the center, 1 on the 8
neighbors) evaluated at padded position `(r + 1, c + 1)`. -/
def filteredSum (p : Grid) (r c : Nat) : Nat :=
  (p r c).toNat + (p r (c + 1)).toNat + (p r (c + 2)).toNat
    + (p (r + 1) c).toNat + 10 * (p (r + 1) (c + 1)).toNat + (p (r + 1) (c + 2)).toNat
    + (p (r + 2) c).toNat + (p (r + 2) (c + 1)).toNat + (p (r + 2) (c + 2)).toNat

/-- The new value of interior cell `(r, c)` computed by `Life.evolve`
(src/life/life.py lines 113-121): alive iff the filtered sum is 12, 13 or 3. -/
def evolveCell (p : Grid) (r c : Nat) : Bool :=
  (filteredSum p r c == 12) || (filteredSum p r c == 13) || (filteredSum p r c == 3)

/-- `Life.evolve` (src/life/life.py lines 113-121): compute the thresholded
correlation from the old padded buffer, then assign its interior slice
through the state setter (which resynchronizes the border). -/
def Life.evolve (L : Life) : Life :=
  L.setInterior (fun r c => evolveCell L.padded r c)

/-- The direct Game of Life rule as stated in the spec (§4.2): a cell becomes
alive in the next generation iff it has exactly 3 living neighbors, or it is
currently alive and has exactly 2 or 3 living neighbors. -/
def directNext (p : Grid) (r c : Nat) : Bool :=
  (liveNeighbors p r c == 3)
    || (p (r + 1) (c + 1) && (liveNeighbors p r c == 2 || liveNeighbors p r c == 3))

/-! ## Helper lemmas -/

theorem grid_congr (p : Grid) {a b c d : Nat} (h1 : a = c) (h2 : b = d) :
    p a b = p c d := by rw [h1, h2]

theorem interior_frame (g : Geometry) (R C : Nat) (p : Grid) (i j : Nat)
    (hi1 : 1 ≤ i) (hi2 : i ≤ R) (hj1 : 1 ≤ j) (hj2 : j ≤ C) :
    updatePadding g R C p i j = p i j := by
  cases g <;>
    simp only [updatePadding, updatePaddingRectangle, updatePaddingCylinder,
      updatePaddingTorus, updatePaddingMobiusStrip, updatePaddingKleinBottle,
      updatePaddingProjectivePlane] <;>
    split_ifs <;> first | rfl | contradiction | (exfalso; omega)

theorem interiorGet_setInterior (L : Life) (g : Nat → Nat → Bool) (r c : Nat)
    (hr : r < L.n_rows) (hc : c < L.n_cols) :
    interiorGet (L.setInterior g).padded r c = g r c := by
  show updatePadding L.geometry L.n_rows L.n_cols
      (overwriteInterior L.n_rows L.n_cols L.padded g) (r + 1) (c + 1) = g r c
  have hf := interior_frame L.geometry L.n_rows L.n_cols
    (overwriteInterior L.n_rows L.n_cols L.padded g) (r + 1) (c + 1)
    (by omega) (by omega) (by omega) (by omega)
  rw [hf]
  simp only [overwriteInterior]
  rw [if_pos (by omega)]
  simp

/-! ## Claim theorems -/

/-- C10: for every geometry and every padded buffer, border synchronization
writes only border cells — every interior cell of the padded buffer is
unchanged by the synchronization step. -/
theorem updatePadding_interior_frame (g : Geometry) (R C : Nat) (p : Grid) (i j : Nat)
    (hi1 : 1 ≤ i) (hi2 : i ≤ R) (hj1 : 1 ≤ j) (hj2 : j ≤ C) :
    updatePadding g R C p i j = p i j :=
  interior_frame g R C p i j hi1 hi2 hj1 hj2

/-- A concrete sample grid used by witnesses. -/
def pSample : Grid := fun i _ => decide (i = 1)

/-- Witness for C10 at geometry torus, `R = C = 2`, interior position (1, 1). -/
theorem updatePadding_interior_frame_witness :
    updatePadding .torus 2 2 pSample 1 1 = pSample 1 1 :=
  updatePadding_interior_frame .torus 2 2 pSample 1 1
    (by decide) (by decide) (by decide) (by decide)

set_option maxHeartbeats 4000000 in
/-- C8: for every geometry and interior grid, resynchronizing the border twice
in a row yields the same padded buffer as doing it once — the computed border
depends only on the interior, not on prior border contents. -/
theorem updatePadding_idempotent (g : Geometry) (R C : Nat) (p : Grid)
    (hR : 0 < R) (hC : 0 < C) (i j : Nat) :
    updatePadding g R C (updatePadding g R C p) i j = updatePadding g R C p i j := by
  generalize hq : updatePadding g R C p = q
  cases g <;>
    (simp only [updatePadding, updatePaddingRectangle, updatePaddingCylinder,
      updatePaddingTorus, updatePaddingMobiusStrip, updatePaddingKleinBottle,
      updatePaddingProjectivePlane]
     split_ifs <;>
       first
       | rfl
       | (rw [← hq]
          simp only [updatePadding, updatePaddingRectangle, updatePaddingCylinder,
            updatePaddingTorus, updatePaddingMobiusStrip, updatePaddingKleinBottle,
            updatePaddingProjectivePlane]
          split_ifs <;>
            first | rfl | contradiction | (exfalso; omega)))

/-- Witness for C8 at geometry projective plane, `R = C = 2`, border corner
position (0, 0). -/
theorem updatePadding_idempotent_witness :
    updatePadding .projectivePlane 2 2 (updatePadding .projectivePlane 2 2 pSample) 0 0
      = updatePadding .projectivePlane 2 2 pSample 0 0 :=
  updatePadding_idempotent .projectivePlane 2 2 pSample (by decide) (by decide) 0 0

/-- C3: real-projective-plane border synchronization: top border (excluding
corners) is interior row `R-1` column-reversed, bottom border is interior row 0
column-reversed, left border at row `r` is `interior[R-1-r][C-1]`, right border
at row `r` is `interior[R-1-r][0]`, and each border corner is the interior's
own same-side corner. -/
theorem projective_plane_border_spec (R C r j : Nat) (p : Grid)
    (hR : 0 < R) (hC : 0 < C) (hr : r < R) (hj : j < C) :
    updatePadding .projectivePlane R C p 0 (j + 1) = interiorGet p (R - 1) (C - 1 - j) ∧
    updatePadding .projectivePlane R C p (R + 1) (j + 1) = interiorGet p 0 (C - 1 - j) ∧
    updatePadding .projectivePlane R C p (r + 1) 0 = interiorGet p (R - 1 - r) (C - 1) ∧
    updatePadding .projectivePlane R C p (r + 1) (C + 1) = interiorGet p (R - 1 - r) 0 ∧
    updatePadding .projectivePlane R C p 0 0 = interiorGet p 0 0 ∧
    updatePadding .projectivePlane R C p 0 (C + 1) = interiorGet p 0 (C - 1) ∧
    updatePadding .projectivePlane R C p (R + 1) 0 = interiorGet p (R - 1) 0 ∧
    updatePadding .projectivePlane R C p (R + 1) (C + 1) = interiorGet p (R - 1) (C - 1) := by
  refine ⟨?_, ?_, ?_, ?_, ?_, ?_, ?_, ?_⟩ <;>
    (simp only [updatePadding, updatePaddingProjectivePlane, interiorGet]
     split_ifs <;> first | contradiction | (apply grid_congr p <;> omega))

/-- Witness for C3 at `R = C = 2`, `r = j = 0`, on the sample grid. -/
theorem projective_plane_border_spec_witness :
    updatePadding .projectivePlane 2 2 pSample 0 1 = interiorGet pSample 1 1 ∧
    updatePadding .projectivePlane 2 2 pSample 3 1 = interiorGet pSample 0 1 ∧
    updatePadding .projectivePlane 2 2 pSample 1 0 = interiorGet pSample 1 1 ∧
    updatePadding .projectivePlane 2 2 pSample 1 3 = interiorGet pSample 1 0 ∧
    updatePadding .projectivePlane 2 2 pSample 0 0 = interiorGet pSample 0 0 ∧
    updatePadding .projectivePlane 2 2 pSample 0 3 = interiorGet pSample 0 1 ∧
    updatePadding .projectivePlane 2 2 pSample 3 0 = interiorGet pSample 1 0 ∧
    updatePadding .projectivePlane 2 2 pSample 3 3 = interiorGet pSample 1 1 :=
  projective_plane_border_spec 2 2 0 0 pSample
    (by decide) (by decide) (by decide) (by decide)

/-- C4: Klein-bottle border synchronization: top/bottom borders as torus (no
column reversal), left/right borders row-reversed as Möbius, corners
reflected (`top-left = interior[0][C-1]`, `top-right = interior[0][0]`,
`bottom-left = interior[R-1][C-1]`, `bottom-right = interior[R-1][0]`); when
the interior values at the relevant opposite corners differ, each Klein corner
differs from the corresponding torus corner (with boolean cells, four pairwise
distinct corner values are impossible, so distinctness is read as the corner
pairs entering each comparison being distinct). -/
theorem klein_bottle_border_spec (R C r j : Nat) (p : Grid)
    (hR : 0 < R) (hC : 0 < C) (hr : r < R) (hj : j < C) :
    (updatePadding .kleinBottle R C p 0 (j + 1) = interiorGet p (R - 1) j ∧
     updatePadding .kleinBottle R C p (R + 1) (j + 1) = interiorGet p 0 j ∧
     updatePadding .kleinBottle R C p (r + 1) 0 = interiorGet p (R - 1 - r) (C - 1) ∧
     updatePadding .kleinBottle R C p (r + 1) (C + 1) = interiorGet p (R - 1 - r) 0 ∧
     updatePadding .kleinBottle R C p 0 0 = interiorGet p 0 (C - 1) ∧
     updatePadding .kleinBottle R C p 0 (C + 1) = interiorGet p 0 0 ∧
     updatePadding .kleinBottle R C p (R + 1) 0 = interiorGet p (R - 1) (C - 1) ∧
     updatePadding .kleinBottle R C p (R + 1) (C + 1) = interiorGet p (R - 1) 0) ∧
    ((interiorGet p 0 (C - 1) ≠ interiorGet p (R - 1) (C - 1) →
      updatePadding .kleinBottle R C p 0 0 ≠ updatePadding .torus R C p 0 0) ∧
     (interiorGet p 0 0 ≠ interiorGet p (R - 1) 0 →
      updatePadding .kleinBottle R C p 0 (C + 1) ≠ updatePadding .torus R C p 0 (C + 1)) ∧
     (interiorGet p (R - 1) (C - 1) ≠ interiorGet p 0 (C - 1) →
      updatePadding .kleinBottle R C p (R + 1) 0 ≠ updatePadding .torus R C p (R + 1) 0) ∧
     (interiorGet p (R - 1) 0 ≠ interiorGet p 0 0 →
      updatePadding .kleinBottle R C p (R + 1) (C + 1) ≠
        updatePadding .torus R C p (R + 1) (C + 1))) := by
  have hkTL : updatePadding .kleinBottle R C p 0 0 = interiorGet p 0 (C - 1) := by
    simp only [updatePadding, updatePaddingKleinBottle, interiorGet]
    split_ifs <;> first | contradiction | (apply grid_congr p <;> omega)
  have hkTR : updatePadding .kleinBottle R C p 0 (C + 1) = interiorGet p 0 0 := by
    simp only [updatePadding, updatePaddingKleinBottle, interiorGet]
    split_ifs <;> first | contradiction | (apply grid_congr p <;> omega)
  have hkBL : updatePadding .kleinBottle R C p (R + 1) 0 = interiorGet p (R - 1) (C - 1) := by
    simp only [updatePadding, updatePaddingKleinBottle, interiorGet]
    split_ifs <;> first | contradiction | (apply grid_congr p <;> omega)
  have hkBR : updatePadding .kleinBottle R C p (R + 1) (C + 1) = interiorGet p (R - 1) 0 := by
    simp only [updatePadding, updatePaddingKleinBottle, interiorGet]
    split_ifs <;> first | contradiction | (apply grid_congr p <;> omega)
  have htTL : updatePadding .torus R C p 0 0 = interiorGet p (R - 1) (C - 1) := by
    simp only [updatePadding, updatePaddingTorus, interiorGet]
    split_ifs <;> first | contradiction | (apply grid_congr p <;> omega)
  have htTR : updatePadding .torus R C p 0 (C + 1) = interiorGet p (R - 1) 0 := by
    simp only [updatePadding, updatePaddingTorus, interiorGet]
    split_ifs <;> first | contradiction | (apply grid_congr p <;> omega)
  have htBL : updatePadding .torus R C p (R + 1) 0 = interiorGet p 0 (C - 1) := by
    simp only [updatePadding, updatePaddingTorus, interiorGet]
    split_ifs <;> first | contradiction | (apply grid_congr p <;> omega)
  have htBR : updatePadding .torus R C p (R + 1) (C + 1) = interiorGet p 0 0 := by
    simp only [updatePadding, updatePaddingTorus, interiorGet]
    split_ifs <;> first | contradiction | (apply grid_congr p <;> omega)
  refine ⟨⟨?_, ?_, ?_, ?_, hkTL, hkTR, hkBL, hkBR⟩, ?_, ?_, ?_, ?_⟩
  · simp only [updatePadding, updatePaddingKleinBottle, interiorGet]
    split_ifs <;> first | contradiction | (apply grid_congr p <;> omega)
  · simp only [updatePadding, updatePaddingKleinBottle, interiorGet]
    split_ifs <;> first | contradiction | (apply grid_congr p <;> omega)
  · simp only [updatePadding, updatePaddingKleinBottle, interiorGet]
    split_ifs <;> first | contradiction | (apply grid_congr p <;> omega)
  · simp only [updatePadding, updatePaddingKleinBottle, interiorGet]
    split_ifs <;> first | contradiction | (apply grid_congr p <;> omega)
  · intro hne; rw [hkTL, htTL]; exact hne
  · intro hne; rw [hkTR, htTR]; exact hne
  · intro hne; rw [hkBL, htBL]; exact hne
  · intro hne; rw [hkBR, htBR]; exact hne

/-- Witness for C4 at `R = C = 2`, `r = j = 0`, on the sample grid whose
interior top row is alive and bottom row dead (so every Klein/torus corner
comparison is between distinct values). -/
theorem klein_bottle_border_spec_witness :
    (updatePadding .kleinBottle 2 2 pSample 0 1 = interiorGet pSample 1 0 ∧
     updatePadding .kleinBottle 2 2 pSample 3 1 = interiorGet pSample 0 0 ∧
     updatePadding .kleinBottle 2 2 pSample 1 0 = interiorGet pSample 1 1 ∧
     updatePadding .kleinBottle 2 2 pSample 1 3 = interiorGet pSample 1 0 ∧
     updatePadding .kleinBottle 2 2 pSample 0 0 = interiorGet pSample 0 1 ∧
     updatePadding .kleinBottle 2 2 pSample 0 3 = interiorGet pSample 0 0 ∧
     updatePadding .kleinBottle 2 2 pSample 3 0 = interiorGet pSample 1 1 ∧
     updatePadding .kleinBottle 2 2 pSample 3 3 = interiorGet pSample 1 0) ∧
    ((interiorGet pSample 0 1 ≠ interiorGet pSample 1 1 →
      updatePadding .kleinBottle 2 2 pSample 0 0 ≠ updatePadding .torus 2 2 pSample 0 0) ∧
     (interiorGet pSample 0 0 ≠ interiorGet pSample 1 0 →
      updatePadding .kleinBottle 2 2 pSample 0 3 ≠ updatePadding .torus 2 2 pSample 0 3) ∧
     (interiorGet pSample 1 1 ≠ interiorGet pSample 0 1 →
      updatePadding .kleinBottle 2 2 pSample 3 0 ≠ updatePadding .torus 2 2 pSample 3 0) ∧
     (interiorGet pSample 1 0 ≠ interiorGet pSample 0 0 →
      updatePadding .kleinBottle 2 2 pSample 3 3 ≠ updatePadding .torus 2 2 pSample 3 3)) :=
  klein_bottle_border_spec 2 2 0 0 pSample (by decide) (by decide) (by decide) (by decide)

/-! ## Evolution rule helpers -/

theorem evolveCell_eq_directNext (p : Grid) (r c : Nat) :
    evolveCell p r c = directNext p r c := by
  have hb : ∀ x : Bool, x.toNat ≤ 1 := fun x => by cases x <;> simp
  have hle : liveNeighbors p r c ≤ 8 := by
    have h1 := hb (p r c); have h2 := hb (p r (c + 1)); have h3 := hb (p r (c + 2))
    have h4 := hb (p (r + 1) c); have h5 := hb (p (r + 1) (c + 2))
    have h6 := hb (p (r + 2) c); have h7 := hb (p (r + 2) (c + 1))
    have h8 := hb (p (r + 2) (c + 2))
    simp only [liveNeighbors]
    omega
  have hsum : filteredSum p r c = 10 * (p (r + 1) (c + 1)).toNat + liveNeighbors p r c := by
    simp only [filteredSum, liveNeighbors]
    omega
  obtain ⟨n, hn⟩ : ∃ n, liveNeighbors p r c = n := ⟨_, rfl⟩
  rw [hn] at hle
  simp only [evolveCell, directNext, hsum, hn]
  cases hcen : p (r + 1) (c + 1) <;> interval_cases n <;> decide

/-- C2: the evolve step computed by the weight-10/1 linear filter (alive next
iff the filtered sum is 12, 13 or 3) produces the same new interior as the
direct rule (alive next iff exactly 3 living neighbors, or currently alive
with 2 or 3 living neighbors), with every cell computed from the old padded
buffer only. -/
theorem evolve_matches_direct_rule (L : Life) (r c : Nat)
    (hr : r < L.n_rows) (hc : c < L.n_cols) :
    interiorGet (L.evolve).padded r c = directNext L.padded r c := by
  show interiorGet ((L.setInterior (fun a b => evolveCell L.padded a b)).padded) r c = _
  rw [interiorGet_setInterior L _ r c hr hc]
  exact evolveCell_eq_directNext L.padded r c

/-- A sample 2×2 torus engine whose interior top row is alive. -/
def lifeSample : Life :=
  { n_rows := 2, n_cols := 2, prob := 1, geometry := .torus, rng := 0,
    padded := pSample }

/-- Witness for C2 on the sample board at interior cell (0, 0). -/
theorem evolve_matches_direct_rule_witness :
    interiorGet (lifeSample.evolve).padded 0 0 = directNext lifeSample.padded 0 0 :=
  evolve_matches_direct_rule lifeSample 0 0 (by decide) (by decide)

/-- C7: on a 3×3 torus board, after border synchronization the 8 padded cells
surrounding interior cell (0,0) — padded positions (0,0), (0,1), (0,2), (1,0),
(1,2), (2,0), (2,1), (2,2) — are interior cells (2,2), (2,0), (2,1), (0,2),
(0,1), (1,2), (1,0), (1,1) respectively, so each other interior cell is a
neighbor of (0,0) exactly once, and when all of them are alive the
living-neighbor count of (0,0) is 8. -/
theorem torus_3x3_wraparound (p : Grid)
    (h : ∀ r c : Nat, r < 3 → c < 3 → ¬(r = 0 ∧ c = 0) → interiorGet p r c = true) :
    updatePadding .torus 3 3 p 0 0 = interiorGet p 2 2 ∧
    updatePadding .torus 3 3 p 0 1 = interiorGet p 2 0 ∧
    updatePadding .torus 3 3 p 0 2 = interiorGet p 2 1 ∧
    updatePadding .torus 3 3 p 1 0 = interiorGet p 0 2 ∧
    updatePadding .torus 3 3 p 1 2 = interiorGet p 0 1 ∧
    updatePadding .torus 3 3 p 2 0 = interiorGet p 1 2 ∧
    updatePadding .torus 3 3 p 2 1 = interiorGet p 1 0 ∧
    updatePadding .torus 3 3 p 2 2 = interiorGet p 1 1 ∧
    liveNeighbors (updatePadding .torus 3 3 p) 0 0 = 8 := by
  have t1 : updatePadding .torus 3 3 p 0 0 = true := h 2 2 (by omega) (by omega) (by omega)
  have t2 : updatePadding .torus 3 3 p 0 1 = true := h 2 0 (by omega) (by omega) (by omega)
  have t3 : updatePadding .torus 3 3 p 0 2 = true := h 2 1 (by omega) (by omega) (by omega)
  have t4 : updatePadding .torus 3 3 p 1 0 = true := h 0 2 (by omega) (by omega) (by omega)
  have t5 : updatePadding .torus 3 3 p 1 2 = true := h 0 1 (by omega) (by omega) (by omega)
  have t6 : updatePadding .torus 3 3 p 2 0 = true := h 1 2 (by omega) (by omega) (by omega)
  have t7 : updatePadding .torus 3 3 p 2 1 = true := h 1 0 (by omega) (by omega) (by omega)
  have t8 : updatePadding .torus 3 3 p 2 2 = true := h 1 1 (by omega) (by omega) (by omega)
  refine ⟨rfl, rfl, rfl, rfl, rfl, rfl, rfl, rfl, ?_⟩
  simp only [liveNeighbors]
  rw [t1, t2, t3, t4, t5, t6, t7, t8]
  decide

/-- The all-alive grid. -/
def pAlive : Grid := fun _ _ => true

/-- Witness for C7 on the all-alive grid. -/
theorem torus_3x3_wraparound_witness :
    updatePadding .torus 3 3 pAlive 0 0 = interiorGet pAlive 2 2 ∧
    updatePadding .torus 3 3 pAlive 0 1 = interiorGet pAlive 2 0 ∧
    updatePadding .torus 3 3 pAlive 0 2 = interiorGet pAlive 2 1 ∧
    updatePadding .torus 3 3 pAlive 1 0 = interiorGet pAlive 0 2 ∧
    updatePadding .torus 3 3 pAlive 1 2 = interiorGet pAlive 0 1 ∧
    updatePadding .torus 3 3 pAlive 2 0 = interiorGet pAlive 1 2 ∧
    updatePadding .torus 3 3 pAlive 2 1 = interiorGet pAlive 1 0 ∧
    updatePadding .torus 3 3 pAlive 2 2 = interiorGet pAlive 1 1 ∧
    liveNeighbors (updatePadding .torus 3 3 pAlive) 0 0 = 8 :=
  torus_3x3_wraparound pAlive (fun _ _ _ _ _ => rfl)

/-! ## Toggle: the legacy implementation forgets to resynchronize (C1) -/

/-- A 1×1 torus board, dead cell, border synchronized (everything false), as
produced by `Life(1, 1, geometry="torus")`. -/
def legacyStart : Life :=
  { n_rows := 1, n_cols := 1, prob := 1, geometry := .torus, rng := 0,
    padded := fun _ _ => false }

/-- The buffer produced by the legacy `toggle_cell(0, 0)` on `legacyStart`:
interior cell flipped, border untouched. -/
def legacyToggled : Life :=
  { legacyStart with padded := flipCell legacyStart.padded 1 1 }

/-- C1 (code bug in the legacy `src/life.py`, lines 180-184): `toggle_cell`
flips the interior cell but never calls `_update_padding()`.  On a 1×1 torus
board starting from a fully synchronized all-dead buffer, after
`toggle_cell(0, 0)` the interior cell is alive while the border cell (0, 0)
is still dead, yet torus synchronization computes `true` for it from the
current interior — the border invariant the claim states is violated.  The
package implementation (`src/life/life.py`, lines 104-109) does
resynchronize: on the same input its border cell (0, 0) is alive. -/
theorem toggle_cell_border_sync_bug :
    Life.toggle_cell_legacy legacyStart 0 0 = some legacyToggled ∧
    interiorGet legacyToggled.padded 0 0 = true ∧
    legacyToggled.padded 0 0 = false ∧
    updatePadding legacyToggled.geometry legacyToggled.n_rows legacyToggled.n_cols
      legacyToggled.padded 0 0 = true ∧
    Life.toggle_cell legacyStart 0 0 = some (Life.updatePad legacyToggled) ∧
    (Life.updatePad legacyToggled).padded 0 0 = true :=
  ⟨rfl, rfl, rfl, rfl, rfl, rfl⟩

/-! ## set_state with numpy broadcasting (C5) -/

/-- A 2×2 torus board with all cells dead. -/
def board2 : Life :=
  { n_rows := 2, n_cols := 2, prob := 1, geometry := .torus, rng := 0,
    padded := fun _ _ => false }

/-- C5 counterexample: a 1×1 grid does not have the board's 2×2 dimensions,
yet `set_state` succeeds — numpy broadcasts the single value across the
interior instead of raising a shape error. -/
theorem set_state_shape_counterexample :
    ¬(1 = board2.n_rows ∧ 1 = board2.n_cols) ∧
    (board2.set_state 1 1 (fun _ _ => true)).isSome = true ∧
    stateAfterSet board2 1 1 (fun _ _ => true) 0 0 = some true :=
  ⟨by decide, rfl, rfl⟩

/-- C5 (amended): `set_state` with a 2-D grid of shape `(gr, gc)` fails (and
leaves the board unchanged) iff the shape is not broadcastable to
`rows × cols` (each dimension must equal the target dimension or 1); for a
grid of exactly `rows × cols` it succeeds and overwrites the interior with
the grid. -/
theorem set_state_broadcast_behavior (L : Life) (gr gc r c : Nat) (g : Nat → Nat → Bool) :
    (L.set_state gr gc g = none ↔
      ¬((gr = L.n_rows ∨ gr = 1) ∧ (gc = L.n_cols ∨ gc = 1))) ∧
    (gr = L.n_rows → gc = L.n_cols → r < L.n_rows → c < L.n_cols →
      stateAfterSet L gr gc g r c = some (g r c)) := by
  constructor
  · simp only [Life.set_state]
    split_ifs with hcond
    · simp [hcond]
    · simp [hcond]
  · intro hgr hgc hr hc
    subst hgr
    subst hgc
    have hcond : (L.n_rows = L.n_rows ∨ L.n_rows = 1) ∧
        (L.n_cols = L.n_cols ∨ L.n_cols = 1) := ⟨Or.inl rfl, Or.inl rfl⟩
    delta stateAfterSet Life.set_state
    rw [if_pos hcond]
    rw [Option.map_some']
    rw [interiorGet_setInterior L _ r c hr hc]
    have e1 : (if L.n_rows = 1 then 0 else r) = r := by split_ifs with h1 <;> omega
    have e2 : (if L.n_cols = 1 then 0 else c) = c := by split_ifs with h2 <;> omega
    rw [e1, e2]

/-- Witness for C5's amended statement: an exactly-shaped 2×2 all-alive grid
overwrites interior cell (0, 0) of the 2×2 board. -/
theorem set_state_broadcast_behavior_witness :
    stateAfterSet board2 2 2 pAlive 0 0 = some (pAlive 0 0) :=
  (set_state_broadcast_behavior board2 2 2 0 0 pAlive).2 rfl rfl (by decide) (by decide)

/-! ## Construction validation (C6) -/

theorem geometryFromString_isSome_iff (s : String) :
    (geometryFromString s).isSome = true ↔ s ∈ GEOMETRIES := by
  simp only [geometryFromString, GEOMETRIES]
  split_ifs with h1 h2 h3 h4 h5 h6 <;> simp_all

theorem mkLife_ok_fields (n_rows n_cols : Int) (geometry : String) (prob : Rat)
    (seed : Nat) (L : Life) (h : mkLife n_rows n_cols geometry prob seed = .ok L) :
    (L.n_rows : Int) = n_rows ∧ (L.n_cols : Int) = n_cols ∧ L.prob = prob ∧
    geometryFromString geometry = some L.geometry ∧ L.rng = seed ∧
    L.padded = (fun _ _ => false) := by
  unfold mkLife at h
  split_ifs at h with h1 h2 h3
  cases hg : geometryFromString geometry with
  | none => rw [hg] at h; exact Except.noConfusion h
  | some g =>
      rw [hg] at h
      injection h with h
      subst h
      exact ⟨Int.toNat_of_nonneg (le_of_lt h1), Int.toNat_of_nonneg (le_of_lt h2),
        rfl, rfl, rfl, rfl⟩

/-- C6: construction succeeds iff the rows and cols are positive, the
probability lies in [0, 1] and the geometry string is one of the six
recognized names — invalid arguments are rejected with an error, never
clamped — and on success the engine stores the arguments unchanged. -/
theorem construction_validation (n_rows n_cols : Int) (geometry : String)
    (prob : Rat) (seed : Nat) (L : Life) :
    (mkLifeOk n_rows n_cols geometry prob seed = true ↔
      (0 < n_rows ∧ 0 < n_cols ∧ (0 ≤ prob ∧ prob ≤ 1) ∧ geometry ∈ GEOMETRIES)) ∧
    (mkLife n_rows n_cols geometry prob seed = .ok L →
      ((L.n_rows : Int) = n_rows ∧ (L.n_cols : Int) = n_cols ∧ L.prob = prob ∧
       geometryFromString geometry = some L.geometry ∧ L.rng = seed)) := by
  constructor
  · have hiff : mkLifeOk n_rows n_cols geometry prob seed = true ↔
        (0 < n_rows ∧ 0 < n_cols ∧ (0 ≤ prob ∧ prob ≤ 1) ∧
          (geometryFromString geometry).isSome = true) := by
      unfold mkLifeOk mkLife
      split_ifs with h1 h2 h3
      · cases hg : geometryFromString geometry <;> simp [hg, h1, h2, h3]
      · simp [h1, h2, h3]
      · simp [h1, h2]
      · simp [h1]
    rw [hiff, geometryFromString_isSome_iff]
  · intro h
    obtain ⟨f1, f2, f3, f4, f5, -⟩ := mkLife_ok_fields _ _ _ _ _ _ h
    exact ⟨f1, f2, f3, f4, f5⟩

/-- Witness for C6: a valid construction (3×4, klein, probability 1,
seed 9) succeeds. -/
theorem construction_validation_witness :
    mkLifeOk 3 4 "klein" 1 9 = true :=
  (construction_validation 3 4 "klein" 1 9 board2).1.mpr
    ⟨by decide, by decide, ⟨by decide, by decide⟩, by decide⟩

/-! ## Randomize determinism (C9) -/

theorem randomize_n_rows (L : Life) : (L.randomize).n_rows = L.n_rows := by
  simp only [Life.randomize, Life.setInterior, Life.updatePad]

theorem randomize_n_cols (L : Life) : (L.randomize).n_cols = L.n_cols := by
  simp only [Life.randomize, Life.setInterior, Life.updatePad]

theorem randomize_prob (L : Life) : (L.randomize).prob = L.prob := by
  simp only [Life.randomize, Life.setInterior, Life.updatePad]

theorem randomize_rng (L : Life) : (L.randomize).rng = rngNext L.rng := by
  simp only [Life.randomize, Life.setInterior, Life.updatePad]

theorem iterate_randomize_fields (L : Life) (n : Nat) :
    ((Life.randomize)^[n] L).n_rows = L.n_rows ∧
    ((Life.randomize)^[n] L).n_cols = L.n_cols ∧
    ((Life.randomize)^[n] L).prob = L.prob ∧
    ((Life.randomize)^[n] L).rng = (rngNext)^[n] L.rng := by
  induction n with
  | zero => exact ⟨rfl, rfl, rfl, rfl⟩
  | succ k ih =>
      rw [Function.iterate_succ_apply', Function.iterate_succ_apply']
      exact ⟨(randomize_n_rows _).trans ih.1, (randomize_n_cols _).trans ih.2.1,
        (randomize_prob _).trans ih.2.2.1,
        (randomize_rng _).trans (congrArg rngNext ih.2.2.2)⟩

theorem interiorGet_randomize (L : Life) (r c : Nat)
    (hr : r < L.n_rows) (hc : c < L.n_cols) :
    interiorGet (L.randomize).padded r c = rngCell L.rng L.prob r c := by
  show interiorGet (L.setInterior (rngCell L.rng L.prob)).padded r c = _
  exact interiorGet_setInterior L _ r c hr hc

/-- C9: two engines constructed with identical rows, cols, probability and
seed (geometries may even differ) produce identical interiors after their
first `randomize()` call and after each subsequent corresponding call: the
output is a deterministic function of the constructor arguments and the
generator's use history. -/
theorem randomize_deterministic (n_rows n_cols : Int) (g1 g2 : String) (prob : Rat)
    (seed : Nat) (e1 e2 : Life) (n r c : Nat)
    (h1 : mkLife n_rows n_cols g1 prob seed = .ok e1)
    (h2 : mkLife n_rows n_cols g2 prob seed = .ok e2)
    (hr : r < e1.n_rows) (hc : c < e1.n_cols) :
    interiorGet ((Life.randomize)^[n + 1] e1).padded r c
      = interiorGet ((Life.randomize)^[n + 1] e2).padded r c := by
  obtain ⟨hr1, hc1, hp1, -, hrng1, -⟩ := mkLife_ok_fields _ _ _ _ _ _ h1
  obtain ⟨hr2, hc2, hp2, -, hrng2, -⟩ := mkLife_ok_fields _ _ _ _ _ _ h2
  have key : ∀ e : Life, e.n_rows = e1.n_rows → e.n_cols = e1.n_cols →
      e.prob = prob → e.rng = seed →
      interiorGet ((Life.randomize)^[n + 1] e).padded r c
        = rngCell ((rngNext)^[n] seed) prob r c := by
    intro e her hec hep herng
    rw [Function.iterate_succ_apply']
    obtain ⟨f1, f2, f3, f4⟩ := iterate_randomize_fields e n
    rw [interiorGet_randomize _ r c (by rw [f1, her]; exact hr) (by rw [f2, hec]; exact hc)]
    rw [f3, f4, hep, herng]
  have he2r : e2.n_rows = e1.n_rows := by
    have h12 : (e2.n_rows : Int) = (e1.n_rows : Int) := by rw [hr1, hr2]
    exact_mod_cast h12
  have he2c : e2.n_cols = e1.n_cols := by
    have h12 : (e2.n_cols : Int) = (e1.n_cols : Int) := by rw [hc1, hc2]
    exact_mod_cast h12
  rw [key e1 rfl rfl hp1 hrng1, key e2 he2r he2c hp2 hrng2]

/-- `board2` with Klein-bottle geometry. -/
def boardK : Life := { board2 with geometry := .kleinBottle }

/-- Witness for C9: a torus engine and a Klein-bottle engine with the same
2×2 dimensions, probability 1, and seed 0 agree on interior cell (0, 0)
after their first `randomize()` call. -/
theorem randomize_deterministic_witness :
    interiorGet ((Life.randomize)^[1] board2).padded 0 0
      = interiorGet ((Life.randomize)^[1] boardK).padded 0 0 :=
  randomize_deterministic 2 2 "torus" "klein" 1 0 board2 boardK 0 0 0
    rfl rfl (by decide) (by decide)

end CursedLife
